import Mathlib

/-!
Shallow embedding of `ej2_despliegue_rh.py`, a linear AWS deployment
script for a human-resources application.  The cloud provider is modelled
as an oracle (a structure of functions returning `ApiResult`), so every
definition below mirrors one Python function of the source: configuration
loading (`_cargar_configuracion`), environment validation
(`_validar_variables_entorno`), the four provisioning steps
(`crear_security_group`, `crear_bucket_s3_backup`, `crear_instancia_ec2`,
`crear_base_datos_rds`), the orchestrator (`desplegar`) and the `main`
entry point.  Each step records the provider calls it issues and the
stdout/stderr lines it prints, so sequencing, abort and reporting
properties can be stated over the traces.
-/

namespace DespliegueRH

/-- Python exception model: `botocore` `ClientError` carries a fault code,
`KeyboardInterrupt` is not a subclass of `Exception` (so `except Exception`
does not catch it), and `other` stands for any remaining exception such as
an `IndexError`. -/
inductive PyExc where
  | clientError (code msg : String)
  | keyboardInterrupt
  | other (msg : String)
deriving DecidableEq, Repr

/-- Message used when the exception is interpolated into an error line. -/
def PyExc.msg : PyExc → String
  | .clientError _ m => m
  | .keyboardInterrupt => ""
  | .other m => m

/-- Whether `except Exception` catches this exception: every exception but
`KeyboardInterrupt` (which derives from `BaseException` only). -/
def PyExc.caughtByExcept : PyExc → Bool
  | .keyboardInterrupt => false
  | _ => true

/-- Result of one provider API call: a value, or a raised exception. -/
inductive ApiResult (α : Type) where
  | ok (v : α)
  | exc (e : PyExc)
deriving DecidableEq

/-- Configuration value in the JSON configuration record. -/
inductive CVal where
  | s (v : String)
  | n (v : Int)
deriving DecidableEq, Repr

/-- Stringification of a configuration value (Python f-string coercion). -/
def CVal.str : CVal → String
  | .s v => v
  | .n v => toString v

/-- First-match association-list lookup, the Python `dict[key]` access. -/
def dlookup {β : Type} (k : String) : List (String × β) → Option β
  | [] => none
  | p :: rest => if k = p.1 then some p.2 else dlookup k rest

/-- Left-biased choice on options. -/
def orO {β : Type} : Option β → Option β → Option β
  | some v, _ => some v
  | none, b => b

/-- Python `dict.update`: every key of `upd` overwrites or is added to
`base`; keys of `base` keep their position, new keys are appended. -/
def dictUpdate {β : Type} (base upd : List (String × β)) : List (String × β) :=
  base.map (fun p => match dlookup p.1 upd with
    | some v => (p.1, v)
    | none => p)
  ++ upd.filter (fun p => (dlookup p.1 base).isNone)

/-- The `config_default` record of `_cargar_configuracion`. -/
def config_default : List (String × CVal) :=
  [("region", .s "us-east-1"),
   ("ami_id", .s "ami-06b21ccaeff8cd686"),
   ("instance_type", .s "t2.micro"),
   ("db_instance_class", .s "db.t3.micro"),
   ("db_allocated_storage", .n 20),
   ("app_name", .s "app-rh-devops"),
   ("environment", .s "production")]

/-- Outcome of a JSON parse of the configuration file. -/
inductive ParsedJson where
  | ok (kvs : List (String × CVal))
  | err (msg : String)
deriving DecidableEq

instance {ε α : Type} [DecidableEq ε] [DecidableEq α] : DecidableEq (Except ε α) := fun x y =>
  match x, y with
  | .ok a, .ok b => if h : a = b then .isTrue (by rw [h]) else .isFalse (by simp [h])
  | .ok _, .error _ => .isFalse (by simp)
  | .error _, .ok _ => .isFalse (by simp)
  | .error e, .error f => if h : e = f then .isTrue (by rw [h]) else .isFalse (by simp [h])

/-- Result of `_cargar_configuracion`: either the merged configuration, or
`sys.exit` with the given code, together with the stderr lines printed. -/
structure LoadOut where
  result : Except Nat (List (String × CVal))
  err : List String
deriving DecidableEq

/-- `_cargar_configuracion`: defaults, optionally overlaid by the parsed
user file via `dict.update`; a `json.JSONDecodeError` prints the parse
error and exits 1.  `fileExists` models `os.path.exists`, `parseFile` the
combination of `open` and `json.load`. -/
def cargar_configuracion (config_file : Option String) (fileExists : String → Bool)
    (parseFile : String → ParsedJson) : LoadOut :=
  match config_file with
  | none => ⟨.ok config_default, []⟩
  | some path =>
    if path ≠ "" ∧ fileExists path = true then
      match parseFile path with
      | .ok user_config => ⟨.ok (dictUpdate config_default user_config), []⟩
      | .err msg => ⟨.error 1, ["Error: Archivo de configuración inválido: " ++ msg]⟩
    else ⟨.ok config_default, []⟩

/-- The `variables_requeridas` table of `_validar_variables_entorno`. -/
def variables_requeridas : List (String × String) :=
  [("RDS_ADMIN_PASSWORD", "Contraseña del administrador de RDS"),
   ("AWS_ACCESS_KEY_ID", "AWS Access Key ID"),
   ("AWS_SECRET_ACCESS_KEY", "AWS Secret Access Key")]

/-- Python truthiness test `not os.environ.get(var)`: the variable is
missing when unset or set to the empty string. -/
def envMissing (env : String → Option String) (v : String) : Bool :=
  match env v with
  | none => true
  | some s => s = ""

/-- The `faltantes` list: one formatted entry per missing variable, in
table order, never stopping at the first. -/
def faltantes (env : String → Option String) : List String :=
  (variables_requeridas.filter (fun p => envMissing env p.1)).map
    (fun p => p.1 ++ " (" ++ p.2 ++ ")")

/-- `_validar_variables_entorno`: when any variable is missing, print the
full list plus example usage to stderr and exit 1. -/
def validar_variables_entorno (env : String → Option String) : Except (List String) Unit :=
  if (faltantes env).isEmpty then .ok ()
  else .error
    (["Error: Las siguientes variables de entorno deben estar definidas:"] ++
     (faltantes env).map (fun v => "  - " ++ v) ++
     ["\nEjemplo:", "  export RDS_ADMIN_PASSWORD=\x27tu_password_seguro\x27"])

/-- The final configuration record as the provisioning methods read it
(`self.config[...]` accesses); built from the merged dictionary. -/
structure Config where
  region : String
  ami_id : String
  instance_type : String
  db_instance_class : String
  db_allocated_storage : Int
  app_name : String
  environment : String
deriving DecidableEq, Repr

/-- String field access `self.config[key]` with f-string coercion. -/
def cstr (c : List (String × CVal)) (k : String) : String :=
  match dlookup k c with
  | some v => v.str
  | none => ""

/-- Builds the `Config` record from the merged configuration dictionary
(all seven keys are present after the merge with the defaults). -/
def toConfig (c : List (String × CVal)) : Config :=
  { region := cstr c "region"
    ami_id := cstr c "ami_id"
    instance_type := cstr c "instance_type"
    db_instance_class := cstr c "db_instance_class"
    db_allocated_storage :=
      match dlookup "db_allocated_storage" c with
      | some (.n v) => v
      | _ => 0
    app_name := cstr c "app_name"
    environment := cstr c "environment" }

/-- One ingress permission entry of `authorize_security_group_ingress`. -/
structure IpPerm where
  ipProtocol : String
  fromPort : Nat
  toPort : Nat
  cidrIp : String
  desc : String
deriving DecidableEq, Repr

/-- The `PublicAccessBlockConfiguration` of `put_public_access_block`. -/
structure PABConfig where
  blockPublicAcls : Bool
  ignorePublicAcls : Bool
  blockPublicPolicy : Bool
  restrictPublicBuckets : Bool
deriving DecidableEq, Repr

/-- The `run_instances` request of `crear_instancia_ec2`. -/
structure RunReq where
  imageId : String
  minCount : Nat
  maxCount : Nat
  instanceType : String
  securityGroupIds : List String
  iamInstanceProfile : String
  userData : String
  tags : List (String × String)
deriving DecidableEq, Repr

/-- The `create_db_instance` request of `crear_base_datos_rds`. -/
structure DbReq where
  dbInstanceIdentifier : String
  allocatedStorage : Int
  dbInstanceClass : String
  engine : String
  engineVersion : String
  masterUsername : String
  masterUserPassword : Option String
  dbName : String
  publiclyAccessible : Bool
  backupRetentionPeriod : Nat
  storageEncrypted : Bool
  kmsKeyId : String
  vpcSecurityGroupIds : List String
  tags : List (String × String)
deriving DecidableEq, Repr

/-- One provider control-plane call, recorded in issue order. -/
inductive AwsCall where
  | createSecurityGroup (name desc : String) (tags : List (String × String))
  | authorizeSecurityGroupIngress (sgId : String) (perms : List IpPerm)
  | describeSecurityGroups (names : List String)
  | createBucket (name : String) (loc : Option String)
  | putBucketEncryption (bucket alg : String)
  | putBucketVersioning (bucket status : String)
  | putPublicAccessBlock (bucket : String) (cfgBlock : PABConfig)
  | putBucketTagging (bucket : String) (tags : List (String × String))
  | runInstances (req : RunReq)
  | waitInstanceRunning (instanceId : String)
  | createDbInstance (req : DbReq)
deriving DecidableEq, Repr

/-- Oracle for the `boto3` EC2 client: each function gives the outcome of
the corresponding API call. -/
structure Ec2Api where
  create_security_group : String → String → List (String × String) → ApiResult String
  authorize_security_group_ingress : String → List IpPerm → ApiResult Unit
  describe_security_groups : List String → ApiResult (List String)
  run_instances : RunReq → ApiResult String
  wait_instance_running : String → ApiResult Unit

/-- Oracle for the `boto3` S3 client. -/
structure S3Api where
  create_bucket : String → Option String → ApiResult Unit
  put_bucket_encryption : String → String → ApiResult Unit
  put_bucket_versioning : String → String → ApiResult Unit
  put_public_access_block : String → PABConfig → ApiResult Unit
  put_bucket_tagging : String → List (String × String) → ApiResult Unit

/-- Oracle for the `boto3` RDS client. -/
structure RdsApi where
  create_db_instance : DbReq → ApiResult Unit

/-- Output of one provisioning method: its return value or the exception
it propagates, the provider calls it issued, and its printed lines. -/
structure StepOut (α : Type) where
  result : Except PyExc α
  calls : List AwsCall
  out : List String
  err : List String
deriving DecidableEq

/-- Derived security-group name `f"{app_name}-sg"`. -/
def sg_name (cfg : Config) : String := cfg.app_name ++ "-sg"

/-- The security-group description string. -/
def sgDescription (cfg : Config) : String :=
  "Security Group para aplicación de RH - " ++ cfg.environment

/-- The security-group tag specification. -/
def sgTags (cfg : Config) : List (String × String) :=
  [("Name", sg_name cfg), ("Environment", cfg.environment),
   ("Application", "Recursos Humanos")]

/-- The two ingress rules: HTTPS (443) and SSH (22) from anywhere. -/
def ingressPermissions : List IpPerm :=
  [{ ipProtocol := "tcp", fromPort := 443, toPort := 443,
     cidrIp := "0.0.0.0/0", desc := "HTTPS desde internet" },
   { ipProtocol := "tcp", fromPort := 22, toPort := 22,
     cidrIp := "0.0.0.0/0", desc := "SSH para administración" }]

/-- The `except ClientError` branch of `crear_security_group`: on the
`InvalidGroup.Duplicate` fault code, look the group up by name and return
the first match; any other code prints an error and re-raises. -/
def sgDuplicateHandler (api : Ec2Api) (name code msg : String)
    (calls : List AwsCall) (out : List String) : StepOut String :=
  if code = "InvalidGroup.Duplicate" then
    match api.describe_security_groups [name] with
    | .ok groups =>
      match groups with
      | [] => ⟨.error (.other "IndexError: list index out of range"),
              calls ++ [.describeSecurityGroups [name]], out, []⟩
      | sg_id :: _ =>
          ⟨.ok sg_id, calls ++ [.describeSecurityGroups [name]],
           out ++ ["⚠ Security Group ya existe: " ++ sg_id], []⟩
    | .exc e => ⟨.error e, calls ++ [.describeSecurityGroups [name]], out, []⟩
  else
    ⟨.error (.clientError code msg), calls, out,
     ["✗ Error creando Security Group: " ++ msg]⟩

/-- `crear_security_group`: create the group, then attach the two ingress
rules; a `ClientError` anywhere in the `try` block goes to
`sgDuplicateHandler`, any other exception propagates. -/
def crear_security_group (api : Ec2Api) (cfg : Config) : StepOut String :=
  match api.create_security_group (sg_name cfg) (sgDescription cfg) (sgTags cfg) with
  | .ok sg_id =>
    match api.authorize_security_group_ingress sg_id ingressPermissions with
    | .ok _ =>
      ⟨.ok sg_id,
       [.createSecurityGroup (sg_name cfg) (sgDescription cfg) (sgTags cfg),
        .authorizeSecurityGroupIngress sg_id ingressPermissions],
       ["✓ Security Group creado: " ++ sg_id,
        "✓ Reglas de seguridad configuradas para " ++ sg_id], []⟩
    | .exc (.clientError code msg) =>
      sgDuplicateHandler api (sg_name cfg) code msg
        [.createSecurityGroup (sg_name cfg) (sgDescription cfg) (sgTags cfg),
         .authorizeSecurityGroupIngress sg_id ingressPermissions]
        ["✓ Security Group creado: " ++ sg_id]
    | .exc e =>
      ⟨.error e,
       [.createSecurityGroup (sg_name cfg) (sgDescription cfg) (sgTags cfg),
        .authorizeSecurityGroupIngress sg_id ingressPermissions],
       ["✓ Security Group creado: " ++ sg_id], []⟩
  | .exc (.clientError code msg) =>
    sgDuplicateHandler api (sg_name cfg) code msg
      [.createSecurityGroup (sg_name cfg) (sgDescription cfg) (sgTags cfg)] []
  | .exc e =>
    ⟨.error e,
     [.createSecurityGroup (sg_name cfg) (sgDescription cfg) (sgTags cfg)], [], []⟩

/-- Derived bucket name `f"{app_name}-backups-{int(time.time())}"`. -/
def bucket_name (cfg : Config) (time : Nat) : String :=
  cfg.app_name ++ "-backups-" ++ toString time

/-- Location qualifier of the create call: `us-east-1` takes none, every
other region passes a `LocationConstraint` equal to the region. -/
def bucketLocation (cfg : Config) : Option String :=
  if cfg.region = "us-east-1" then none else some cfg.region

/-- The full public-access block applied to the backup bucket. -/
def pabAll : PABConfig :=
  { blockPublicAcls := true, ignorePublicAcls := true,
    blockPublicPolicy := true, restrictPublicBuckets := true }

/-- The backup-bucket tag set. -/
def bucketTags (cfg : Config) (bucket : String) : List (String × String) :=
  [("Name", bucket), ("Environment", cfg.environment),
   ("Application", "Recursos Humanos"), ("Purpose", "Backups")]

/-- Stderr line of the bucket step's `except ClientError` branch. -/
def s3ErrOut (msg : String) : List String :=
  ["✗ Error creando bucket S3: " ++ msg]

/-- The four configuration calls issued after bucket creation, identical
on both region branches: encryption, versioning, public-access block and
tagging. -/
def bucketConfigTail (cfg : Config) (bucket : String) : List AwsCall :=
  [.putBucketEncryption bucket "AES256",
   .putBucketVersioning bucket "Enabled",
   .putPublicAccessBlock bucket pabAll,
   .putBucketTagging bucket (bucketTags cfg bucket)]

/-- `crear_bucket_s3_backup`: create the bucket (region-dependent call
shape), then encryption, versioning, public-access block and tags in
sequence; any `ClientError` prints an error and re-raises, any other
exception propagates silently. -/
def crear_bucket_s3_backup (api : S3Api) (cfg : Config) (time : Nat) : StepOut String :=
  let bucket := bucket_name cfg time
  let createCall := AwsCall.createBucket bucket (bucketLocation cfg)
  match (if cfg.region = "us-east-1" then api.create_bucket bucket none
         else api.create_bucket bucket (some cfg.region)) with
  | .exc (.clientError code msg) =>
      ⟨.error (.clientError code msg), [createCall], [], s3ErrOut msg⟩
  | .exc e => ⟨.error e, [createCall], [], []⟩
  | .ok _ =>
    match api.put_bucket_encryption bucket "AES256" with
    | .exc (.clientError code msg) =>
        ⟨.error (.clientError code msg),
         [createCall, .putBucketEncryption bucket "AES256"], [], s3ErrOut msg⟩
    | .exc e => ⟨.error e, [createCall, .putBucketEncryption bucket "AES256"], [], []⟩
    | .ok _ =>
      match api.put_bucket_versioning bucket "Enabled" with
      | .exc (.clientError code msg) =>
          ⟨.error (.clientError code msg),
           [createCall, .putBucketEncryption bucket "AES256",
            .putBucketVersioning bucket "Enabled"], [], s3ErrOut msg⟩
      | .exc e =>
          ⟨.error e,
           [createCall, .putBucketEncryption bucket "AES256",
            .putBucketVersioning bucket "Enabled"], [], []⟩
      | .ok _ =>
        match api.put_public_access_block bucket pabAll with
        | .exc (.clientError code msg) =>
            ⟨.error (.clientError code msg),
             [createCall, .putBucketEncryption bucket "AES256",
              .putBucketVersioning bucket "Enabled",
              .putPublicAccessBlock bucket pabAll], [], s3ErrOut msg⟩
        | .exc e =>
            ⟨.error e,
             [createCall, .putBucketEncryption bucket "AES256",
              .putBucketVersioning bucket "Enabled",
              .putPublicAccessBlock bucket pabAll], [], []⟩
        | .ok _ =>
          match api.put_bucket_tagging bucket (bucketTags cfg bucket) with
          | .exc (.clientError code msg) =>
              ⟨.error (.clientError code msg),
               createCall :: bucketConfigTail cfg bucket, [], s3ErrOut msg⟩
          | .exc e => ⟨.error e, createCall :: bucketConfigTail cfg bucket, [], []⟩
          | .ok _ =>
              ⟨.ok bucket, createCall :: bucketConfigTail cfg bucket,
               ["✓ Bucket S3 creado con encriptación: " ++ bucket], []⟩

/-- The bootstrap `user_data` script passed verbatim to the instance. -/
def user_data : String :=
  "#!/bin/bash\n# Actualizar sistema\nyum update -y\n\n# Instalar dependencias\nyum install -y httpd mysql php php-mysqlnd\n\n# Configurar HTTPS (requiere certificado SSL)\n# En producción, usar certificados de AWS Certificate Manager\n\n# Configurar firewall\nsystemctl start firewalld\nsystemctl enable firewalld\nfirewall-cmd --permanent --add-service=https\nfirewall-cmd --permanent --add-service=http\nfirewall-cmd --reload\n\n# Iniciar servicios\nsystemctl start httpd\nsystemctl enable httpd\n\n# Crear página de prueba\necho \"<!DOCTYPE html>\n<html>\n<head>\n    <title>Aplicación de Recursos Humanos</title>\n    <meta charset=\x27UTF-8\x27>\n</head>\n<body>\n    <h1>Aplicación de Recursos Humanos - Desplegada</h1>\n    <p>Esta aplicación maneja información sensible de empleados.</p>\n    <p>Medidas de seguridad implementadas:</p>\n    <ul>\n        <li>Encriptación en reposo</li>\n        <li>Encriptación en tránsito (HTTPS)</li>\n        <li>Security Groups restrictivos</li>\n        <li>Backups encriptados en S3</li>\n    </ul>\n</body>\n</html>\" > /var/www/html/index.html\n\n# Configurar permisos\nchmod 644 /var/www/html/index.html\nchown apache:apache /var/www/html/index.html\n"

/-- The `run_instances` request built by `crear_instancia_ec2`. -/
def runRequest (cfg : Config) (sg_id : String) : RunReq :=
  { imageId := cfg.ami_id, minCount := 1, maxCount := 1,
    instanceType := cfg.instance_type, securityGroupIds := [sg_id],
    iamInstanceProfile := "LabInstanceProfile", userData := user_data,
    tags := [("Name", cfg.app_name ++ "-web"),
             ("Environment", cfg.environment),
             ("Application", "Recursos Humanos")] }

/-- `crear_instancia_ec2`: launch one instance bound to the security
group, then block on the `instance_running` waiter; a `ClientError`
prints an error and re-raises, any other exception propagates. -/
def crear_instancia_ec2 (api : Ec2Api) (cfg : Config) (sg_id : String) : StepOut String :=
  match api.run_instances (runRequest cfg sg_id) with
  | .ok instance_id =>
    match api.wait_instance_running instance_id with
    | .ok _ =>
        ⟨.ok instance_id,
         [.runInstances (runRequest cfg sg_id), .waitInstanceRunning instance_id],
         ["✓ Instancia EC2 creada: " ++ instance_id,
          "Esperando a que la instancia esté lista...",
          "✓ Instancia " ++ instance_id ++ " está en estado \x27running\x27"], []⟩
    | .exc (.clientError code msg) =>
        ⟨.error (.clientError code msg),
         [.runInstances (runRequest cfg sg_id), .waitInstanceRunning instance_id],
         ["✓ Instancia EC2 creada: " ++ instance_id,
          "Esperando a que la instancia esté lista..."],
         ["✗ Error creando instancia EC2: " ++ msg]⟩
    | .exc e =>
        ⟨.error e,
         [.runInstances (runRequest cfg sg_id), .waitInstanceRunning instance_id],
         ["✓ Instancia EC2 creada: " ++ instance_id,
          "Esperando a que la instancia esté lista..."], []⟩
  | .exc (.clientError code msg) =>
      ⟨.error (.clientError code msg), [.runInstances (runRequest cfg sg_id)], [],
       ["✗ Error creando instancia EC2: " ++ msg]⟩
  | .exc e => ⟨.error e, [.runInstances (runRequest cfg sg_id)], [], []⟩

/-- The `create_db_instance` request built by `crear_base_datos_rds`;
the password comes from the `RDS_ADMIN_PASSWORD` environment variable and
the security-group attachment list is deliberately left empty. -/
def dbRequest (cfg : Config) (pw : Option String) : DbReq :=
  { dbInstanceIdentifier := cfg.app_name ++ "-db",
    allocatedStorage := cfg.db_allocated_storage,
    dbInstanceClass := cfg.db_instance_class,
    engine := "mysql", engineVersion := "8.0",
    masterUsername := "admin", masterUserPassword := pw,
    dbName := "rh_database", publiclyAccessible := false,
    backupRetentionPeriod := 7, storageEncrypted := true,
    kmsKeyId := "alias/aws/rds", vpcSecurityGroupIds := [],
    tags := [("Name", cfg.app_name ++ "-db"),
             ("Environment", cfg.environment),
             ("Application", "Recursos Humanos"),
             ("ContainsSensitiveData", "true")] }

/-- `crear_base_datos_rds`: create the database instance; on the
`DBInstanceAlreadyExists` fault code print a warning to stdout and return
the deterministic identifier, on any other `ClientError` print an error
and re-raise; the identifier `f"{app_name}-db"` is returned in every
non-raising path. -/
def crear_base_datos_rds (api : RdsApi) (cfg : Config) (pw : Option String) : StepOut String :=
  match api.create_db_instance (dbRequest cfg pw) with
  | .ok _ =>
      ⟨.ok (cfg.app_name ++ "-db"), [.createDbInstance (dbRequest cfg pw)],
       ["✓ Instancia RDS creada: " ++ (cfg.app_name ++ "-db"),
        "  - Encriptación en reposo: Habilitada",
        "  - Acceso público: Deshabilitado",
        "  - Retención de backups: 7 días"], []⟩
  | .exc (.clientError code msg) =>
      if code = "DBInstanceAlreadyExists" then
        ⟨.ok (cfg.app_name ++ "-db"), [.createDbInstance (dbRequest cfg pw)],
         ["⚠ Instancia RDS " ++ (cfg.app_name ++ "-db") ++ " ya existe"], []⟩
      else
        ⟨.error (.clientError code msg), [.createDbInstance (dbRequest cfg pw)], [],
         ["✗ Error creando instancia RDS: " ++ msg]⟩
  | .exc e => ⟨.error e, [.createDbInstance (dbRequest cfg pw)], [], []⟩

/-- The three provider clients used by the orchestrator. -/
structure AwsApi where
  ec2 : Ec2Api
  s3 : S3Api
  rds : RdsApi

/-- How a `desplegar` invocation terminates: fall off the end, call
`sys.exit`, or let an exception propagate to `main`. -/
inductive DeployEnd where
  | completed
  | exited (code : Nat)
  | raised (e : PyExc)
deriving DecidableEq, Repr

/-- Full observable output of a `desplegar` invocation.  `handlerOut` is
exactly what the `except Exception` block prints (in print order), so the
failure report can be told apart from per-step progress lines. -/
structure DeployOut where
  recursos : List (String × String)
  calls : List AwsCall
  out : List String
  err : List String
  handlerOut : List String
  steps : List Nat
  ending : DeployEnd
deriving DecidableEq

/-- The `"=" * 60` separator line. -/
def sepLine : String := String.mk (List.replicate 60 '=')

/-- The banner printed by `desplegar` before the first step. -/
def headerLines (cfg : Config) : List String :=
  [sepLine, "INICIANDO DESPLIEGUE DE APLICACIÓN DE RECURSOS HUMANOS", sepLine,
   "Región: " ++ cfg.region, "Ambiente: " ++ cfg.environment,
   "Aplicación: " ++ cfg.app_name, sepLine, ""]

/-- Stdout warning of the `except Exception` block: a generic reminder
that resources may exist, without listing them. -/
def avisoLine : String :=
  "\n⚠ Algunos recursos pueden haber sido creados. Revisa la consola de AWS."

/-- Stderr line of the `except Exception` block. -/
def deployErrLine (e : PyExc) : String :=
  "\n✗ Error durante el despliegue: " ++ e.msg

/-- Termination of `desplegar` when a step raises `e`: the
`except Exception` block prints the error and the generic warning and
exits 1; `KeyboardInterrupt` is not caught there and propagates. -/
def deployFail (recursos : List (String × String)) (calls : List AwsCall)
    (out err : List String) (steps : List Nat) (e : PyExc) : DeployOut :=
  if e.caughtByExcept then
    ⟨recursos, calls, out ++ [avisoLine], err ++ [deployErrLine e],
     [deployErrLine e, avisoLine], steps, .exited 1⟩
  else
    ⟨recursos, calls, out, err, [], steps, .raised e⟩

/-- The success summary: completed banner, the resource list, and the
security reminders. -/
def resumenLines (recursos : List (String × String)) : List String :=
  ["\n" ++ sepLine, "DESPLIEGUE COMPLETADO EXITOSAMENTE", sepLine,
   "\nRecursos creados:"] ++
  recursos.map (fun p => "  - " ++ p.1 ++ ": " ++ p.2) ++
  ["\n⚠ IMPORTANTE - MEDIDAS DE SEGURIDAD:",
   "  1. Cambiar las contraseñas por defecto",
   "  2. Configurar certificados SSL para HTTPS",
   "  3. Restringir Security Groups a IPs específicas en producción",
   "  4. Habilitar CloudTrail para auditoría",
   "  5. Configurar backups automáticos",
   "  6. Revisar y ajustar políticas IAM",
   "  7. No subir credenciales al repositorio Git"]

/-- `desplegar`: the four steps in fixed order, each result appended to
`recursos_creados` only after the step returns; the first propagated
exception reaches the `except Exception` block (or, for
`KeyboardInterrupt`, propagates to `main`). -/
def desplegar (api : AwsApi) (cfg : Config) (time : Nat) (pw : Option String) : DeployOut :=
  let s1 := crear_security_group api.ec2 cfg
  let out1 := headerLines cfg ++ ["\n[1/4] Creando Security Group..."] ++ s1.out
  match s1.result with
  | .error e => deployFail [] s1.calls out1 s1.err [1] e
  | .ok sg_id =>
    let r1 := [("security_group", sg_id)]
    let s2 := crear_bucket_s3_backup api.s3 cfg time
    let out2 := out1 ++ ["\n[2/4] Creando bucket S3 para backups..."] ++ s2.out
    match s2.result with
    | .error e => deployFail r1 (s1.calls ++ s2.calls) out2 (s1.err ++ s2.err) [1, 2] e
    | .ok b =>
      let r2 := r1 ++ [("s3_bucket", b)]
      let s3 := crear_instancia_ec2 api.ec2 cfg sg_id
      let out3 := out2 ++ ["\n[3/4] Creando instancia EC2..."] ++ s3.out
      match s3.result with
      | .error e =>
          deployFail r2 (s1.calls ++ s2.calls ++ s3.calls) out3
            (s1.err ++ s2.err ++ s3.err) [1, 2, 3] e
      | .ok inst =>
        let r3 := r2 ++ [("ec2_instance", inst)]
        let s4 := crear_base_datos_rds api.rds cfg pw
        let out4 := out3 ++ ["\n[4/4] Creando base de datos RDS..."] ++ s4.out
        match s4.result with
        | .error e =>
            deployFail r3 (s1.calls ++ s2.calls ++ s3.calls ++ s4.calls) out4
              (s1.err ++ s2.err ++ s3.err ++ s4.err) [1, 2, 3, 4] e
        | .ok db =>
          let r4 := r3 ++ [("rds_instance", db)]
          ⟨r4, s1.calls ++ s2.calls ++ s3.calls ++ s4.calls,
           out4 ++ resumenLines r4, s1.err ++ s2.err ++ s3.err ++ s4.err,
           [], [1, 2, 3, 4], .completed⟩

/-- Observable output of a whole `main` run: final process exit code,
provider calls issued, stdout and stderr lines, the orchestrator failure
report, the accumulated resources and the steps started. -/
structure ProgOut where
  exitCode : Nat
  calls : List AwsCall
  out : List String
  err : List String
  handlerOut : List String
  recursos : List (String × String)
  steps : List Nat
deriving DecidableEq

/-- Stderr line of `main`'s `except KeyboardInterrupt` handler. -/
def cancelLine : String := "\n\n⚠ Despliegue cancelado por el usuario"

/-- Stderr line of `main`'s `except Exception` handler. -/
def fatalLine (e : PyExc) : String := "\n✗ Error fatal: " ++ e.msg

/-- `main`: load the configuration, validate the environment (both may
`sys.exit(1)` before any provider call), then run `desplegar`;
`KeyboardInterrupt` is caught at top level and reported with its own
message at exit 1, any other escaped exception is reported as
`Error fatal` at exit 1, and falling off the end exits 0. -/
def main_run (config_file : Option String) (fileExists : String → Bool)
    (parseFile : String → ParsedJson) (env : String → Option String)
    (api : AwsApi) (time : Nat) : ProgOut :=
  let lo := cargar_configuracion config_file fileExists parseFile
  match lo.result with
  | .error code => ⟨code, [], [], lo.err, [], [], []⟩
  | .ok cfgList =>
    match validar_variables_entorno env with
    | .error lines => ⟨1, [], [], lo.err ++ lines, [], [], []⟩
    | .ok _ =>
      let d := desplegar api (toConfig cfgList) time (env "RDS_ADMIN_PASSWORD")
      match d.ending with
      | .completed => ⟨0, d.calls, d.out, d.err, d.handlerOut, d.recursos, d.steps⟩
      | .exited c => ⟨c, d.calls, d.out, d.err, d.handlerOut, d.recursos, d.steps⟩
      | .raised e =>
        if e = .keyboardInterrupt then
          ⟨1, d.calls, d.out, d.err ++ [cancelLine], d.handlerOut, d.recursos, d.steps⟩
        else
          ⟨1, d.calls, d.out, d.err ++ [fatalLine e], d.handlerOut, d.recursos, d.steps⟩

/-- Security groups known to the provider, as name-to-identifier pairs in
creation order. -/
structure ProviderState where
  securityGroups : List (String × String)

/-- Registers a successful security-group creation with the provider. -/
def registerSg (st : ProviderState) (name id : String) : ProviderState :=
  ⟨st.securityGroups ++ [(name, id)]⟩

/-- EC2 oracle backed by a provider state: creating an existing name
fails with `InvalidGroup.Duplicate`, a fresh name creates `fresh`, and
describe-by-names returns the identifiers of the matching groups. -/
def mkEc2Api (st : ProviderState) (fresh : String) : Ec2Api :=
  { create_security_group := fun name _ _ =>
      match dlookup name st.securityGroups with
      | some _ => .exc (.clientError "InvalidGroup.Duplicate"
          ("The security group " ++ name ++ " already exists"))
      | none => .ok fresh
    authorize_security_group_ingress := fun _ _ => .ok ()
    describe_security_groups := fun names =>
      .ok ((st.securityGroups.filter (fun p => names.any (fun n => p.1 == n))).map
            (fun p => p.2))
    run_instances := fun _ => .ok "i-00000000"
    wait_instance_running := fun _ => .ok () }

/-- Whether the character list starts with the given pattern. -/
def startsWithSeq : List Char → List Char → Bool
  | _, [] => true
  | [], _ :: _ => false
  | c :: rest, d :: dsub => c == d && startsWithSeq rest dsub

/-- Whether the pattern occurs contiguously inside the character list. -/
def containsSeq : List Char → List Char → Bool
  | [], sub => sub.isEmpty
  | c :: rest, sub => startsWithSeq (c :: rest) sub || containsSeq rest sub

/-- Whether `sub` occurs as a substring of `s`; used to check that a
printed line does (not) mention a resource identifier. -/
def mentionsSub (s sub : String) : Bool := containsSeq s.data sub.data

/-- Lookup of a key in a successfully loaded configuration. -/
def loadedLookup (lo : LoadOut) (k : String) : Option CVal :=
  match lo.result with
  | .ok c => dlookup k c
  | .error _ => none

/-- EC2 oracle on which every call succeeds. -/
def okEc2 : Ec2Api :=
  { create_security_group := fun _ _ _ => .ok "sg-0aaa"
    authorize_security_group_ingress := fun _ _ => .ok ()
    describe_security_groups := fun _ => .ok ["sg-0aaa"]
    run_instances := fun _ => .ok "i-0bbb"
    wait_instance_running := fun _ => .ok () }

/-- S3 oracle on which every call succeeds. -/
def okS3 : S3Api :=
  { create_bucket := fun _ _ => .ok ()
    put_bucket_encryption := fun _ _ => .ok ()
    put_bucket_versioning := fun _ _ => .ok ()
    put_public_access_block := fun _ _ => .ok ()
    put_bucket_tagging := fun _ _ => .ok () }

/-- RDS oracle on which every call succeeds. -/
def okRds : RdsApi := { create_db_instance := fun _ => .ok () }

/-- Provider on which every call succeeds. -/
def okApi : AwsApi := ⟨okEc2, okS3, okRds⟩

/-- EC2 oracle whose group creation fails with a non-conflict fault. -/
def errEc2 : Ec2Api :=
  { okEc2 with
    create_security_group := fun _ _ _ =>
      .exc (.clientError "UnauthorizedOperation" "not allowed") }

/-- EC2 oracle whose group creation fails with the duplicate-name fault
and whose lookup finds an existing group. -/
def dupEc2 : Ec2Api :=
  { okEc2 with
    create_security_group := fun _ _ _ =>
      .exc (.clientError "InvalidGroup.Duplicate" "exists")
    describe_security_groups := fun _ => .ok ["sg-0exist"] }

/-- EC2 oracle interrupted by the operator during group creation. -/
def kiEc2 : Ec2Api :=
  { okEc2 with create_security_group := fun _ _ _ => .exc .keyboardInterrupt }

/-- EC2 oracle whose instance launch fails. -/
def failRunEc2 : Ec2Api :=
  { okEc2 with
    run_instances := fun _ =>
      .exc (.clientError "InsufficientInstanceCapacity" "no capacity") }

/-- S3 oracle whose bucket creation fails. -/
def failS3 : S3Api :=
  { okS3 with
    create_bucket := fun _ _ =>
      .exc (.clientError "AccessDenied" "Access Denied") }

/-- RDS oracle reporting that the database instance already exists. -/
def dupRds : RdsApi :=
  { create_db_instance := fun _ => .exc (.clientError "DBInstanceAlreadyExists" "db exists") }

/-- RDS oracle failing with a non-conflict fault. -/
def capRds : RdsApi :=
  { create_db_instance := fun _ =>
      .exc (.clientError "InsufficientDBInstanceCapacity" "no capacity") }

/-- The configuration record obtained from the defaults alone. -/
def cfgD : Config := toConfig config_default

/-- The default configuration with a region that needs the location
qualifier. -/
def cfgEU : Config := { cfgD with region := "eu-west-1" }

/-- Provider failing at step 1 (security group, non-conflict fault). -/
def apiSgErr : AwsApi := ⟨errEc2, okS3, okRds⟩

/-- Provider failing at step 2 (bucket creation). -/
def apiS3Fail : AwsApi := ⟨okEc2, failS3, okRds⟩

/-- Provider failing at step 3 (instance launch). -/
def apiRunFail : AwsApi := ⟨failRunEc2, okS3, okRds⟩

/-- Provider failing at step 4 (database creation, non-conflict fault). -/
def apiRdsCap : AwsApi := ⟨okEc2, okS3, capRds⟩

/-- Provider interrupted by the operator during step 1. -/
def apiKI : AwsApi := ⟨kiEc2, okS3, okRds⟩

/-- Environment with all three required variables set. -/
def envAll : String → Option String := fun _ => some "value"

/-- Environment in which only `RDS_ADMIN_PASSWORD` is unset. -/
def envNoPw : String → Option String := fun v =>
  if v = "RDS_ADMIN_PASSWORD" then none else some "value"

end DespliegueRH

namespace DespliegueRH

theorem dlookup_append {β : Type} (l1 l2 : List (String × β)) (k : String) :
    dlookup k (l1 ++ l2) = orO (dlookup k l1) (dlookup k l2) := by
  induction l1 with
  | nil => simp [dlookup, orO]
  | cons p rest ih =>
    by_cases hk : k = p.1
    · simp [dlookup, hk, orO]
    · simp [dlookup, hk, ih]

theorem dlookup_map_upd {β : Type} (base upd : List (String × β)) (k : String) :
    dlookup k (base.map (fun p => match dlookup p.1 upd with
      | some v => (p.1, v)
      | none => p)) =
    match dlookup k base with
    | none => none
    | some w => some (match dlookup k upd with | some v => v | none => w) := by
  induction base with
  | nil => rfl
  | cons p rest ih =>
    obtain ⟨a, u⟩ := p
    by_cases hka : k = a
    · subst hka
      cases hd : dlookup k upd <;> simp [dlookup, hd]
    · cases hd : dlookup a upd <;> simp [dlookup, hka, hd, ih]

theorem dlookup_filter_skip {β : Type} (base upd : List (String × β)) (k : String)
    (h : dlookup k base = none) :
    dlookup k (upd.filter (fun p => (dlookup p.1 base).isNone)) = dlookup k upd := by
  induction upd with
  | nil => rfl
  | cons p rest ih =>
    obtain ⟨a, v⟩ := p
    by_cases hka : k = a
    · subst hka
      simp [List.filter, dlookup, h]
    · cases hp : (dlookup a base).isNone <;> simp [List.filter, hp, dlookup, hka, ih]

theorem dlookup_dictUpdate {β : Type} (base upd : List (String × β)) (k : String) :
    dlookup k (dictUpdate base upd) = orO (dlookup k upd) (dlookup k base) := by
  unfold dictUpdate
  rw [dlookup_append, dlookup_map_upd]
  cases hb : dlookup k base with
  | none =>
    rw [dlookup_filter_skip base upd k hb]
    cases dlookup k upd <;> simp [orO]
  | some w => cases hu : dlookup k upd <;> simp [orO, hu]

/-- C6 counterexample: a configuration file holding only the unknown key
`foo` parses successfully, yet the merged result keeps `foo` with the
file's value even though `foo` is not a default key — `dict.update` adds
unknown keys instead of ignoring them, so the merged result is not the
default record with only its own keys overridden. -/
theorem C6_counterexample_unknown_key :
    loadedLookup (cargar_configuracion (some "config.json") (fun _ => true)
      (fun _ => .ok [("foo", CVal.s "bar")])) "foo" = some (CVal.s "bar") ∧
    dlookup "foo" config_default = none := by decide

/-- C6 (amended): for every configuration file that parses successfully,
the merged result is the default record overlaid with all of the file's
keys — known keys are overridden last-write-wins, unknown keys are added
rather than ignored — and keys missing from the file keep their default
values; with no path or an absent file the default record is returned
unchanged. -/
theorem C6_config_merge_amended :
    (∀ (path : String) (fileExists : String → Bool) (parseFile : String → ParsedJson)
       (user : List (String × CVal)) (k : String),
       path ≠ "" → fileExists path = true → parseFile path = .ok user →
       (cargar_configuracion (some path) fileExists parseFile).result =
         .ok (dictUpdate config_default user) ∧
       dlookup k (dictUpdate config_default user) =
         orO (dlookup k user) (dlookup k config_default)) ∧
    (∀ (fileExists : String → Bool) (parseFile : String → ParsedJson),
       (cargar_configuracion none fileExists parseFile).result = .ok config_default) ∧
    (∀ (path : String) (fileExists : String → Bool) (parseFile : String → ParsedJson),
       fileExists path = false →
       (cargar_configuracion (some path) fileExists parseFile).result = .ok config_default) := by
  refine ⟨?_, ?_, ?_⟩
  · intro path fe pf user k hp hf hparse
    constructor
    · simp [cargar_configuracion, hp, hf, hparse]
    · exact dlookup_dictUpdate _ _ _
  · intro fe pf
    rfl
  · intro path fe pf hf
    simp [cargar_configuracion, hf]

theorem C6_amended_witness :
    (cargar_configuracion (some "config.json") (fun _ => true)
       (fun _ => .ok [("region", CVal.s "eu-west-1"), ("foo", CVal.s "bar")])).result =
      .ok (dictUpdate config_default
            [("region", CVal.s "eu-west-1"), ("foo", CVal.s "bar")]) ∧
    dlookup "region" (dictUpdate config_default
        [("region", CVal.s "eu-west-1"), ("foo", CVal.s "bar")]) =
      orO (dlookup "region" [("region", CVal.s "eu-west-1"), ("foo", CVal.s "bar")])
        (dlookup "region" config_default) :=
  C6_config_merge_amended.1 "config.json" (fun _ => true)
    (fun _ => .ok [("region", CVal.s "eu-west-1"), ("foo", CVal.s "bar")])
    [("region", CVal.s "eu-west-1"), ("foo", CVal.s "bar")] "region"
    (by decide) rfl rfl

/-- C7: for every configuration file whose content is not valid JSON, the
loader reports the parse error on stderr and the process exits with code
1 before any provider call is issued (the call trace is empty). -/
theorem C7_invalid_json_exits_before_provisioning :
    ∀ (path : String) (fileExists : String → Bool) (parseFile : String → ParsedJson)
      (env : String → Option String) (api : AwsApi) (time : Nat) (msg : String),
      path ≠ "" → fileExists path = true → parseFile path = .err msg →
      (main_run (some path) fileExists parseFile env api time).exitCode = 1 ∧
      (main_run (some path) fileExists parseFile env api time).calls = [] ∧
      (main_run (some path) fileExists parseFile env api time).err =
        ["Error: Archivo de configuración inválido: " ++ msg] := by
  intro path fe pf env api t msg hp hf hparse
  simp [main_run, cargar_configuracion, hp, hf, hparse]

theorem C7_witness :
    (main_run (some "config.json") (fun _ => true)
       (fun _ => .err "Expecting value: line 1 column 1 (char 0)")
       envAll okApi 0).exitCode = 1 ∧
    (main_run (some "config.json") (fun _ => true)
       (fun _ => .err "Expecting value: line 1 column 1 (char 0)")
       envAll okApi 0).calls = [] ∧
    (main_run (some "config.json") (fun _ => true)
       (fun _ => .err "Expecting value: line 1 column 1 (char 0)")
       envAll okApi 0).err =
      ["Error: Archivo de configuración inválido: " ++
       "Expecting value: line 1 column 1 (char 0)"] :=
  C7_invalid_json_exits_before_provisioning "config.json" (fun _ => true)
    (fun _ => .err "Expecting value: line 1 column 1 (char 0)") envAll okApi 0
    "Expecting value: line 1 column 1 (char 0)" (by decide) rfl rfl

/-- C8: whenever at least one required environment variable is missing,
the validator reports every missing variable with its description (not
only the first) plus the example-usage lines, and the process exits with
code 1 with no provider call issued. -/
theorem C8_missing_env_reported_and_aborts :
    ∀ (config_file : Option String) (fileExists : String → Bool)
      (parseFile : String → ParsedJson) (env : String → Option String)
      (api : AwsApi) (time : Nat) (cfgList : List (String × CVal)),
      (cargar_configuracion config_file fileExists parseFile).result = .ok cfgList →
      faltantes env ≠ [] →
      (main_run config_file fileExists parseFile env api time).exitCode = 1 ∧
      (main_run config_file fileExists parseFile env api time).calls = [] ∧
      (∀ p ∈ variables_requeridas, envMissing env p.1 = true →
        ("  - " ++ (p.1 ++ " (" ++ p.2 ++ ")")) ∈
          (main_run config_file fileExists parseFile env api time).err) ∧
      "\nEjemplo:" ∈ (main_run config_file fileExists parseFile env api time).err := by
  intro cf fe pf env api t cfgL hload hmiss
  have hne : (faltantes env).isEmpty = false := by
    cases h : faltantes env with
    | nil => exact absurd h hmiss
    | cons a l => rfl
  have hval : validar_variables_entorno env =
      .error (["Error: Las siguientes variables de entorno deben estar definidas:"] ++
        (faltantes env).map (fun v => "  - " ++ v) ++
        ["\nEjemplo:", "  export RDS_ADMIN_PASSWORD=\x27tu_password_seguro\x27"]) := by
    simp [validar_variables_entorno, hne]
  simp only [main_run, hload, hval]
  refine ⟨trivial, trivial, ?_, ?_⟩
  · intro p hp hmissp
    apply List.mem_append_right
    apply List.mem_append_left
    apply List.mem_append_right
    have hfalt : (p.1 ++ " (" ++ p.2 ++ ")") ∈ faltantes env := by
      have hpf : p ∈ variables_requeridas.filter (fun q => envMissing env q.1) :=
        List.mem_filter.mpr ⟨hp, by simp [hmissp]⟩
      exact List.mem_map_of_mem (fun q => q.1 ++ " (" ++ q.2 ++ ")") hpf
    exact List.mem_map_of_mem (fun v => "  - " ++ v) hfalt
  · apply List.mem_append_right
    apply List.mem_append_right
    simp

theorem dlookup_none_forall {β : Type} (l : List (String × β)) (k : String)
    (h : dlookup k l = none) : ∀ p ∈ l, p.1 ≠ k := by
  induction l with
  | nil =>
    intro p hp
    cases hp
  | cons q rest ih =>
    intro p hp
    have hq : ¬ (k = q.1) := by
      intro hk
      simp [dlookup, hk] at h
    have h2 : dlookup k rest = none := by
      simpa [dlookup, hq] using h
    cases hp with
    | head => exact fun he => hq he.symm
    | tail _ hmem => exact ih h2 p hmem

theorem filter_key_eq_nil (l : List (String × String)) (k : String)
    (h : dlookup k l = none) :
    l.filter (fun p => p.1 == k) = [] := by
  have hall := dlookup_none_forall l k h
  apply List.filter_eq_nil_iff.mpr
  intro p hp
  simp [hall p hp]

/-- C3: on the duplicate-name fault the security-group step does not
raise but looks the rule set up by its derived name and returns the
identifier a prior successful creation with that name produced (shown
against the stateful provider model: a first run on a state without the
name creates and returns `fresh`, and a second run against the state with
that registration returns the same `fresh`); any fault with a different
code propagates. -/
theorem C3_sg_idempotent_on_conflict :
    (∀ (st : ProviderState) (cfg : Config) (fresh fresh2 : String),
       dlookup (sg_name cfg) st.securityGroups = none →
       (crear_security_group (mkEc2Api st fresh) cfg).result = .ok fresh ∧
       (crear_security_group
          (mkEc2Api (registerSg st (sg_name cfg) fresh) fresh2) cfg).result = .ok fresh) ∧
    (∀ (api : Ec2Api) (cfg : Config) (code msg : String),
       code ≠ "InvalidGroup.Duplicate" →
       api.create_security_group (sg_name cfg) (sgDescription cfg) (sgTags cfg) =
         .exc (.clientError code msg) →
       (crear_security_group api cfg).result = .error (.clientError code msg)) := by
  constructor
  · intro st cfg fresh fresh2 h
    constructor
    · simp [crear_security_group, mkEc2Api, h]
    · have hc : dlookup (sg_name cfg)
          (st.securityGroups ++ [(sg_name cfg, fresh)]) = some fresh := by
        rw [dlookup_append, h]
        simp [orO, dlookup]
      simp [crear_security_group, mkEc2Api, hc, sgDuplicateHandler, registerSg,
        List.filter_append, filter_key_eq_nil st.securityGroups (sg_name cfg) h]
  · intro api cfg code msg hne hc
    simp [crear_security_group, hc, sgDuplicateHandler, hne]

theorem C3_witness :
    ((crear_security_group (mkEc2Api ⟨[]⟩ "sg-0f01") cfgD).result = .ok "sg-0f01" ∧
     (crear_security_group
        (mkEc2Api (registerSg ⟨[]⟩ (sg_name cfgD) "sg-0f01") "sg-0f02") cfgD).result =
       .ok "sg-0f01") ∧
    (crear_security_group errEc2 cfgD).result =
      .error (.clientError "UnauthorizedOperation" "not allowed") :=
  ⟨C3_sg_idempotent_on_conflict.1 ⟨[]⟩ cfgD "sg-0f01" "sg-0f02" (by decide),
   C3_sg_idempotent_on_conflict.2 errEc2 cfgD "UnauthorizedOperation" "not allowed"
     (by decide) rfl⟩

/-- C4: on the `DBInstanceAlreadyExists` fault the database step returns
the deterministic identifier `app_name ++ "-db"` without raising, and
prints a warning (to stdout) rather than an error (stderr stays empty);
any fault with a different code propagates as fatal. -/
theorem C4_rds_conflict_is_success :
    (∀ (api : RdsApi) (cfg : Config) (pw : Option String) (msg : String),
       api.create_db_instance (dbRequest cfg pw) =
         .exc (.clientError "DBInstanceAlreadyExists" msg) →
       (crear_base_datos_rds api cfg pw).result = .ok (cfg.app_name ++ "-db") ∧
       (crear_base_datos_rds api cfg pw).out =
         ["⚠ Instancia RDS " ++ (cfg.app_name ++ "-db") ++ " ya existe"] ∧
       (crear_base_datos_rds api cfg pw).err = []) ∧
    (∀ (api : RdsApi) (cfg : Config) (pw : Option String) (code msg : String),
       code ≠ "DBInstanceAlreadyExists" →
       api.create_db_instance (dbRequest cfg pw) = .exc (.clientError code msg) →
       (crear_base_datos_rds api cfg pw).result = .error (.clientError code msg)) := by
  constructor
  · intro api cfg pw msg hc
    simp [crear_base_datos_rds, hc]
  · intro api cfg pw code msg hne hc
    simp [crear_base_datos_rds, hc, hne]

theorem C4_witness :
    ((crear_base_datos_rds dupRds cfgD (some "pw")).result =
       .ok (cfgD.app_name ++ "-db") ∧
     (crear_base_datos_rds dupRds cfgD (some "pw")).out =
       ["⚠ Instancia RDS " ++ (cfgD.app_name ++ "-db") ++ " ya existe"] ∧
     (crear_base_datos_rds dupRds cfgD (some "pw")).err = []) ∧
    (crear_base_datos_rds capRds cfgD (some "pw")).result =
      .error (.clientError "InsufficientDBInstanceCapacity" "no capacity") :=
  ⟨C4_rds_conflict_is_success.1 dupRds cfgD (some "pw") "db exists" rfl,
   C4_rds_conflict_is_success.2 capRds cfgD (some "pw")
     "InsufficientDBInstanceCapacity" "no capacity" (by decide) rfl⟩

/-- C5: the bucket step always issues the creation call first, with no
location qualifier exactly when the region is `us-east-1` and with a
qualifier equal to the configured region otherwise; when every call
succeeds the full trace is the creation call followed by the fixed
encryption/versioning/public-access-block/tagging tail, and that tail
does not depend on the region. -/
theorem C5_bucket_region_quirk :
    (∀ (api : S3Api) (cfg : Config) (time : Nat),
       (crear_bucket_s3_backup api cfg time).calls.head? =
         some (.createBucket (bucket_name cfg time) (bucketLocation cfg))) ∧
    (∀ (api : S3Api) (cfg : Config) (time : Nat),
       (∀ loc, api.create_bucket (bucket_name cfg time) loc = .ok ()) →
       api.put_bucket_encryption (bucket_name cfg time) "AES256" = .ok () →
       api.put_bucket_versioning (bucket_name cfg time) "Enabled" = .ok () →
       api.put_public_access_block (bucket_name cfg time) pabAll = .ok () →
       api.put_bucket_tagging (bucket_name cfg time)
         (bucketTags cfg (bucket_name cfg time)) = .ok () →
       (crear_bucket_s3_backup api cfg time).calls =
         .createBucket (bucket_name cfg time) (bucketLocation cfg) ::
           bucketConfigTail cfg (bucket_name cfg time) ∧
       (crear_bucket_s3_backup api cfg time).result = .ok (bucket_name cfg time)) ∧
    (∀ (cfg : Config) (r b : String),
       bucketConfigTail { cfg with region := r } b = bucketConfigTail cfg b) := by
  refine ⟨?_, ?_, ?_⟩
  · intro api cfg t
    simp only [crear_bucket_s3_backup]
    repeat' split
    all_goals rfl
  · intro api cfg t hc he hv hp ht
    simp [crear_bucket_s3_backup, hc, he, hv, hp, ht]
  · intro cfg r b
    rfl

theorem C5_witness :
    ((crear_bucket_s3_backup okS3 cfgD 1700000000).calls =
       .createBucket (bucket_name cfgD 1700000000) (bucketLocation cfgD) ::
         bucketConfigTail cfgD (bucket_name cfgD 1700000000) ∧
     (crear_bucket_s3_backup okS3 cfgD 1700000000).result =
       .ok (bucket_name cfgD 1700000000)) ∧
    ((crear_bucket_s3_backup okS3 cfgEU 1700000000).calls =
       .createBucket (bucket_name cfgEU 1700000000) (bucketLocation cfgEU) ::
         bucketConfigTail cfgEU (bucket_name cfgEU 1700000000) ∧
     (crear_bucket_s3_backup okS3 cfgEU 1700000000).result =
       .ok (bucket_name cfgEU 1700000000)) :=
  ⟨C5_bucket_region_quirk.2.1 okS3 cfgD 1700000000 (fun _ => rfl) rfl rfl rfl rfl,
   C5_bucket_region_quirk.2.1 okS3 cfgEU 1700000000 (fun _ => rfl) rfl rfl rfl rfl⟩

/-- C10: on the duplicate-name path the security-group step issues only
the creation attempt and the lookup — no ingress-authorization call
appears in its trace, so the existing rule set's rules are left exactly
as they were and the port-443/port-22 rules are attached only on the
fresh-creation path. -/
theorem C10_no_ingress_call_on_duplicate :
    ∀ (api : Ec2Api) (cfg : Config) (msg : String),
      api.create_security_group (sg_name cfg) (sgDescription cfg) (sgTags cfg) =
        .exc (.clientError "InvalidGroup.Duplicate" msg) →
      (crear_security_group api cfg).calls =
        [.createSecurityGroup (sg_name cfg) (sgDescription cfg) (sgTags cfg),
         .describeSecurityGroups [sg_name cfg]] ∧
      (∀ (sgId : String) (perms : List IpPerm),
        AwsCall.authorizeSecurityGroupIngress sgId perms ∉
          (crear_security_group api cfg).calls) := by
  intro api cfg msg h
  have hcalls : (crear_security_group api cfg).calls =
      [.createSecurityGroup (sg_name cfg) (sgDescription cfg) (sgTags cfg),
       .describeSecurityGroups [sg_name cfg]] := by
    simp only [crear_security_group, h, sgDuplicateHandler]
    cases hd : api.describe_security_groups [sg_name cfg] with
    | ok groups => cases groups <;> simp
    | exc e => simp
  refine ⟨hcalls, ?_⟩
  intro sgId perms
  rw [hcalls]
  simp

theorem C10_witness :
    (crear_security_group dupEc2 cfgD).calls =
      [.createSecurityGroup (sg_name cfgD) (sgDescription cfgD) (sgTags cfgD),
       .describeSecurityGroups [sg_name cfgD]] ∧
    AwsCall.authorizeSecurityGroupIngress "sg-0exist" ingressPermissions ∉
      (crear_security_group dupEc2 cfgD).calls := by
  have h := C10_no_ingress_call_on_duplicate dupEc2 cfgD "exists" rfl
  exact ⟨h.1, h.2 "sg-0exist" ingressPermissions⟩

theorem C8_witness :
    (main_run none (fun _ => true) (fun _ => .err "unused") envNoPw okApi 0).exitCode = 1 ∧
    (main_run none (fun _ => true) (fun _ => .err "unused") envNoPw okApi 0).calls = [] ∧
    ("  - " ++ ("RDS_ADMIN_PASSWORD" ++ " (" ++ "Contraseña del administrador de RDS" ++ ")")) ∈
      (main_run none (fun _ => true) (fun _ => .err "unused") envNoPw okApi 0).err ∧
    "\nEjemplo:" ∈ (main_run none (fun _ => true) (fun _ => .err "unused") envNoPw okApi 0).err := by
  have h := C8_missing_env_reported_and_aborts none (fun _ => true) (fun _ => .err "unused")
    envNoPw okApi 0 config_default rfl (by decide)
  exact ⟨h.1, h.2.1,
    h.2.2.1 ("RDS_ADMIN_PASSWORD", "Contraseña del administrador de RDS")
      (by decide) (by decide), h.2.2.2⟩

/-- C1: when a step propagates a fatal (non-interrupt) fault, the
orchestrator stops there: it exits with code 1, the accumulated resource
set holds exactly the entries of the steps that completed strictly before
the failing one, only the steps up to and including the failing one were
started, and the call trace is exactly the concatenation of the traces of
the started steps (no later step issues any call). -/
theorem C1_abort_on_first_fault :
    (∀ (api : AwsApi) (cfg : Config) (time : Nat) (pw : Option String) (e : PyExc),
       (crear_security_group api.ec2 cfg).result = .error e →
       e.caughtByExcept = true →
       (desplegar api cfg time pw).ending = .exited 1 ∧
       (desplegar api cfg time pw).recursos = [] ∧
       (desplegar api cfg time pw).steps = [1] ∧
       (desplegar api cfg time pw).calls = (crear_security_group api.ec2 cfg).calls) ∧
    (∀ (api : AwsApi) (cfg : Config) (time : Nat) (pw : Option String)
       (sg : String) (e : PyExc),
       (crear_security_group api.ec2 cfg).result = .ok sg →
       (crear_bucket_s3_backup api.s3 cfg time).result = .error e →
       e.caughtByExcept = true →
       (desplegar api cfg time pw).ending = .exited 1 ∧
       (desplegar api cfg time pw).recursos = [("security_group", sg)] ∧
       (desplegar api cfg time pw).steps = [1, 2] ∧
       (desplegar api cfg time pw).calls =
         (crear_security_group api.ec2 cfg).calls ++
         (crear_bucket_s3_backup api.s3 cfg time).calls) ∧
    (∀ (api : AwsApi) (cfg : Config) (time : Nat) (pw : Option String)
       (sg b : String) (e : PyExc),
       (crear_security_group api.ec2 cfg).result = .ok sg →
       (crear_bucket_s3_backup api.s3 cfg time).result = .ok b →
       (crear_instancia_ec2 api.ec2 cfg sg).result = .error e →
       e.caughtByExcept = true →
       (desplegar api cfg time pw).ending = .exited 1 ∧
       (desplegar api cfg time pw).recursos =
         [("security_group", sg), ("s3_bucket", b)] ∧
       (desplegar api cfg time pw).steps = [1, 2, 3] ∧
       (desplegar api cfg time pw).calls =
         (crear_security_group api.ec2 cfg).calls ++
         (crear_bucket_s3_backup api.s3 cfg time).calls ++
         (crear_instancia_ec2 api.ec2 cfg sg).calls) ∧
    (∀ (api : AwsApi) (cfg : Config) (time : Nat) (pw : Option String)
       (sg b inst : String) (e : PyExc),
       (crear_security_group api.ec2 cfg).result = .ok sg →
       (crear_bucket_s3_backup api.s3 cfg time).result = .ok b →
       (crear_instancia_ec2 api.ec2 cfg sg).result = .ok inst →
       (crear_base_datos_rds api.rds cfg pw).result = .error e →
       e.caughtByExcept = true →
       (desplegar api cfg time pw).ending = .exited 1 ∧
       (desplegar api cfg time pw).recursos =
         [("security_group", sg), ("s3_bucket", b), ("ec2_instance", inst)] ∧
       (desplegar api cfg time pw).steps = [1, 2, 3, 4] ∧
       (desplegar api cfg time pw).calls =
         (crear_security_group api.ec2 cfg).calls ++
         (crear_bucket_s3_backup api.s3 cfg time).calls ++
         (crear_instancia_ec2 api.ec2 cfg sg).calls ++
         (crear_base_datos_rds api.rds cfg pw).calls) := by
  refine ⟨?_, ?_, ?_, ?_⟩
  · intro api cfg t pw e h1 he
    simp [desplegar, h1, deployFail, he]
  · intro api cfg t pw sg e h1 h2 he
    simp [desplegar, h1, h2, deployFail, he]
  · intro api cfg t pw sg b e h1 h2 h3 he
    simp [desplegar, h1, h2, h3, deployFail, he]
  · intro api cfg t pw sg b inst e h1 h2 h3 h4 he
    simp [desplegar, h1, h2, h3, h4, deployFail, he]

theorem C1_witness :
    ((desplegar apiSgErr cfgD 1700000000 (some "pw")).ending = .exited 1 ∧
     (desplegar apiSgErr cfgD 1700000000 (some "pw")).recursos = [] ∧
     (desplegar apiSgErr cfgD 1700000000 (some "pw")).steps = [1] ∧
     (desplegar apiSgErr cfgD 1700000000 (some "pw")).calls =
       (crear_security_group apiSgErr.ec2 cfgD).calls) ∧
    ((desplegar apiS3Fail cfgD 1700000000 (some "pw")).ending = .exited 1 ∧
     (desplegar apiS3Fail cfgD 1700000000 (some "pw")).recursos =
       [("security_group", "sg-0aaa")] ∧
     (desplegar apiS3Fail cfgD 1700000000 (some "pw")).steps = [1, 2] ∧
     (desplegar apiS3Fail cfgD 1700000000 (some "pw")).calls =
       (crear_security_group apiS3Fail.ec2 cfgD).calls ++
       (crear_bucket_s3_backup apiS3Fail.s3 cfgD 1700000000).calls) ∧
    ((desplegar apiRunFail cfgD 1700000000 (some "pw")).ending = .exited 1 ∧
     (desplegar apiRunFail cfgD 1700000000 (some "pw")).recursos =
       [("security_group", "sg-0aaa"), ("s3_bucket", bucket_name cfgD 1700000000)] ∧
     (desplegar apiRunFail cfgD 1700000000 (some "pw")).steps = [1, 2, 3] ∧
     (desplegar apiRunFail cfgD 1700000000 (some "pw")).calls =
       (crear_security_group apiRunFail.ec2 cfgD).calls ++
       (crear_bucket_s3_backup apiRunFail.s3 cfgD 1700000000).calls ++
       (crear_instancia_ec2 apiRunFail.ec2 cfgD "sg-0aaa").calls) ∧
    ((desplegar apiRdsCap cfgD 1700000000 (some "pw")).ending = .exited 1 ∧
     (desplegar apiRdsCap cfgD 1700000000 (some "pw")).recursos =
       [("security_group", "sg-0aaa"), ("s3_bucket", bucket_name cfgD 1700000000),
        ("ec2_instance", "i-0bbb")] ∧
     (desplegar apiRdsCap cfgD 1700000000 (some "pw")).steps = [1, 2, 3, 4] ∧
     (desplegar apiRdsCap cfgD 1700000000 (some "pw")).calls =
       (crear_security_group apiRdsCap.ec2 cfgD).calls ++
       (crear_bucket_s3_backup apiRdsCap.s3 cfgD 1700000000).calls ++
       (crear_instancia_ec2 apiRdsCap.ec2 cfgD "sg-0aaa").calls ++
       (crear_base_datos_rds apiRdsCap.rds cfgD (some "pw")).calls) :=
  ⟨C1_abort_on_first_fault.1 apiSgErr cfgD 1700000000 (some "pw")
     (.clientError "UnauthorizedOperation" "not allowed") (by decide) (by decide),
   C1_abort_on_first_fault.2.1 apiS3Fail cfgD 1700000000 (some "pw") "sg-0aaa"
     (.clientError "AccessDenied" "Access Denied") (by decide) (by decide) (by decide),
   C1_abort_on_first_fault.2.2.1 apiRunFail cfgD 1700000000 (some "pw") "sg-0aaa"
     (bucket_name cfgD 1700000000)
     (.clientError "InsufficientInstanceCapacity" "no capacity")
     (by decide) (by decide) (by decide) (by decide),
   C1_abort_on_first_fault.2.2.2 apiRdsCap cfgD 1700000000 (some "pw") "sg-0aaa"
     (bucket_name cfgD 1700000000) "i-0bbb"
     (.clientError "InsufficientDBInstanceCapacity" "no capacity")
     (by decide) (by decide) (by decide) (by decide) (by decide)⟩

/-- C2 counterexample: with step 1 succeeding (identifier `sg-0aaa`) and
step 2 failing, the failure handler exits 1 and prints exactly the error
line and the generic warning — no line of the failure report mentions the
accumulated identifier `sg-0aaa`, so the partial ProvisionedResourceSet
is not printed, contrary to the claim. -/
theorem C2_counterexample_partial_set_not_printed :
    (desplegar apiS3Fail cfgD 1700000000 (some "pw")).recursos =
      [("security_group", "sg-0aaa")] ∧
    (desplegar apiS3Fail cfgD 1700000000 (some "pw")).ending = .exited 1 ∧
    (desplegar apiS3Fail cfgD 1700000000 (some "pw")).handlerOut =
      ["\n✗ Error durante el despliegue: Access Denied",
       "\n⚠ Algunos recursos pueden haber sido creados. Revisa la consola de AWS."] ∧
    (desplegar apiS3Fail cfgD 1700000000 (some "pw")).handlerOut.all
      (fun l => !(mentionsSub l "sg-0aaa")) = true := by decide

/-- C2 (amended): on any propagated fatal (non-interrupt) error from a
step, the orchestrator prints the underlying error and a generic warning
that orphaned resources may exist — without printing the partial
ProvisionedResourceSet — and terminates with exit status 1. -/
theorem C2_amended_failure_report :
    (∀ (api : AwsApi) (cfg : Config) (time : Nat) (pw : Option String) (e : PyExc),
       (crear_security_group api.ec2 cfg).result = .error e →
       e.caughtByExcept = true →
       (desplegar api cfg time pw).handlerOut = [deployErrLine e, avisoLine] ∧
       (desplegar api cfg time pw).ending = .exited 1) ∧
    (∀ (api : AwsApi) (cfg : Config) (time : Nat) (pw : Option String)
       (sg : String) (e : PyExc),
       (crear_security_group api.ec2 cfg).result = .ok sg →
       (crear_bucket_s3_backup api.s3 cfg time).result = .error e →
       e.caughtByExcept = true →
       (desplegar api cfg time pw).handlerOut = [deployErrLine e, avisoLine] ∧
       (desplegar api cfg time pw).ending = .exited 1) ∧
    (∀ (api : AwsApi) (cfg : Config) (time : Nat) (pw : Option String)
       (sg b : String) (e : PyExc),
       (crear_security_group api.ec2 cfg).result = .ok sg →
       (crear_bucket_s3_backup api.s3 cfg time).result = .ok b →
       (crear_instancia_ec2 api.ec2 cfg sg).result = .error e →
       e.caughtByExcept = true →
       (desplegar api cfg time pw).handlerOut = [deployErrLine e, avisoLine] ∧
       (desplegar api cfg time pw).ending = .exited 1) ∧
    (∀ (api : AwsApi) (cfg : Config) (time : Nat) (pw : Option String)
       (sg b inst : String) (e : PyExc),
       (crear_security_group api.ec2 cfg).result = .ok sg →
       (crear_bucket_s3_backup api.s3 cfg time).result = .ok b →
       (crear_instancia_ec2 api.ec2 cfg sg).result = .ok inst →
       (crear_base_datos_rds api.rds cfg pw).result = .error e →
       e.caughtByExcept = true →
       (desplegar api cfg time pw).handlerOut = [deployErrLine e, avisoLine] ∧
       (desplegar api cfg time pw).ending = .exited 1) := by
  refine ⟨?_, ?_, ?_, ?_⟩
  · intro api cfg t pw e h1 he
    simp [desplegar, h1, deployFail, he]
  · intro api cfg t pw sg e h1 h2 he
    simp [desplegar, h1, h2, deployFail, he]
  · intro api cfg t pw sg b e h1 h2 h3 he
    simp [desplegar, h1, h2, h3, deployFail, he]
  · intro api cfg t pw sg b inst e h1 h2 h3 h4 he
    simp [desplegar, h1, h2, h3, h4, deployFail, he]

theorem C2_amended_witness :
    (desplegar apiS3Fail cfgD 1700000000 (some "pw")).handlerOut =
      [deployErrLine (.clientError "AccessDenied" "Access Denied"), avisoLine] ∧
    (desplegar apiS3Fail cfgD 1700000000 (some "pw")).ending = .exited 1 :=
  C2_amended_failure_report.2.1 apiS3Fail cfgD 1700000000 (some "pw") "sg-0aaa"
    (.clientError "AccessDenied" "Access Denied") (by decide) (by decide) (by decide)

/-- C9: a `KeyboardInterrupt` raised while a step runs escapes the
orchestrator's `except Exception` handler (whose report stays empty), is
caught at top level where the cancellation message is printed, and the
process exits with code 1; when every step succeeds the process exits
with code 0. -/
theorem C9_interrupt_and_success_exit_codes :
    (∀ (config_file : Option String) (fileExists : String → Bool)
       (parseFile : String → ParsedJson) (env : String → Option String)
       (api : AwsApi) (time : Nat) (cfgList : List (String × CVal)),
       (cargar_configuracion config_file fileExists parseFile).result = .ok cfgList →
       faltantes env = [] →
       (crear_security_group api.ec2 (toConfig cfgList)).result =
         .error .keyboardInterrupt →
       (main_run config_file fileExists parseFile env api time).exitCode = 1 ∧
       cancelLine ∈ (main_run config_file fileExists parseFile env api time).err ∧
       (main_run config_file fileExists parseFile env api time).handlerOut = []) ∧
    (∀ (config_file : Option String) (fileExists : String → Bool)
       (parseFile : String → ParsedJson) (env : String → Option String)
       (api : AwsApi) (time : Nat) (cfgList : List (String × CVal))
       (sg b inst db : String),
       (cargar_configuracion config_file fileExists parseFile).result = .ok cfgList →
       faltantes env = [] →
       (crear_security_group api.ec2 (toConfig cfgList)).result = .ok sg →
       (crear_bucket_s3_backup api.s3 (toConfig cfgList) time).result = .ok b →
       (crear_instancia_ec2 api.ec2 (toConfig cfgList) sg).result = .ok inst →
       (crear_base_datos_rds api.rds (toConfig cfgList)
         (env "RDS_ADMIN_PASSWORD")).result = .ok db →
       (main_run config_file fileExists parseFile env api time).exitCode = 0) := by
  constructor
  · intro cf fe pf env api t cfgL hload hfalt hsg
    have hval : validar_variables_entorno env = .ok () := by
      simp [validar_variables_entorno, hfalt]
    have hend : (desplegar api (toConfig cfgL) t (env "RDS_ADMIN_PASSWORD")).ending =
        .raised .keyboardInterrupt := by
      simp [desplegar, hsg, deployFail, PyExc.caughtByExcept]
    have hho : (desplegar api (toConfig cfgL) t (env "RDS_ADMIN_PASSWORD")).handlerOut =
        [] := by
      simp [desplegar, hsg, deployFail, PyExc.caughtByExcept]
    simp [main_run, hload, hval, hend, hho]
  · intro cf fe pf env api t cfgL sg b inst db hload hfalt h1 h2 h3 h4
    have hval : validar_variables_entorno env = .ok () := by
      simp [validar_variables_entorno, hfalt]
    have hend : (desplegar api (toConfig cfgL) t (env "RDS_ADMIN_PASSWORD")).ending =
        .completed := by
      simp [desplegar, h1, h2, h3, h4]
    simp [main_run, hload, hval, hend]

theorem C9_witness :
    ((main_run none (fun _ => true) (fun _ => .err "unused") envAll apiKI 0).exitCode = 1 ∧
     cancelLine ∈ (main_run none (fun _ => true) (fun _ => .err "unused") envAll apiKI 0).err ∧
     (main_run none (fun _ => true) (fun _ => .err "unused") envAll apiKI 0).handlerOut = []) ∧
    (main_run none (fun _ => true) (fun _ => .err "unused") envAll okApi 0).exitCode = 0 :=
  ⟨C9_interrupt_and_success_exit_codes.1 none (fun _ => true) (fun _ => .err "unused")
     envAll apiKI 0 config_default rfl (by decide) (by decide),
   C9_interrupt_and_success_exit_codes.2 none (fun _ => true) (fun _ => .err "unused")
     envAll okApi 0 config_default "sg-0aaa" (bucket_name (toConfig config_default) 0)
     "i-0bbb" ((toConfig config_default).app_name ++ "-db")
     rfl (by decide) (by decide) (by decide) (by decide) (by decide)⟩

end DespliegueRH
